import Mathlib

/-!
Shallow embedding of the real-time call coordination hook
(`src/hooks/useRealtimeCommunication.ts`) of the BT-hosting frontend.

The hook is a single-threaded, event-driven coordinator.  We embed it as a
family of pure functions from a `HookState` (the React state, refs and the
websocket-open flag) to a new `HookState` together with a list of `Effect`s:
REST requests, outbound signaling messages, peer-connection operations,
media-device operations, and timer scheduling.  Asynchronous environment
outcomes (REST responses, `getUserMedia` results) are passed in explicitly
as environment records, mirroring the `await` points of the source.
-/

namespace RTComm

/-- Call type, `type CallType = 'audio' | 'video'`. -/
inductive CallType
  | audio
  | video
deriving DecidableEq, Repr

/-- Call status, `type CallStatus = 'idle' | 'calling' | 'ringing' | 'connected'
| 'ended' | 'declined' | 'busy' | 'no_answer'`. -/
inductive CallStatus
  | idle
  | calling
  | ringing
  | connected
  | ended
  | declined
  | busy
  | no_answer
deriving DecidableEq, Repr

/-- Kind of a captured media track. -/
inductive TrackKind
  | audio
  | video
deriving DecidableEq, Repr

/-- A local media track: its kind and its `enabled` property. -/
structure MediaTrack where
  kind : TrackKind
  enabled : Bool
deriving DecidableEq, Repr

/-- A local media stream: the list of its tracks. -/
structure LocalMediaStream where
  tracks : List MediaTrack
deriving DecidableEq, Repr

/-- The remote user `{ id, name }`. -/
structure RemoteUser where
  id : String
  name : String
deriving DecidableEq, Repr

/-- `interface CallState` of the hook.  `remoteStream` is an opaque handle
(the code never inspects it, only stores/clears it), modelled as a `Nat` id. -/
structure CallState where
  callId : Option String
  callType : CallType
  status : CallStatus
  remoteStream : Option Nat
  localStream : Option LocalMediaStream
  isAudio : Bool
  isVideo : Bool
  remoteUser : Option RemoteUser
  callDuration : Nat
  isInitiator : Bool
deriving DecidableEq, Repr

/-- `interface IceCandidate` (`sdpMLineIndex` is a number, modelled as `Nat`). -/
structure IceCandidate where
  candidate : String
  sdpMLineIndex : Nat
  sdpMid : String
deriving DecidableEq, Repr

/-- The `incomingCall` React state: `{ callId, fromUser, callType }`. -/
structure IncomingCall where
  callId : String
  fromUser : RemoteUser
  callType : CallType
deriving DecidableEq, Repr

/-- Outbound signaling messages sent with `wsRef.current.send(JSON.stringify {type, payload})`.
Only the payload fields the code actually writes are carried. -/
inductive OutMsg
  | initiate_call (callId receiverId receiverName callerName : String) (callType : CallType)
  | accept_call (callId : String) (callType : CallType)
  | decline_call (callId : String)
  | end_call (callId : String)
  | offer (callId : String)
  | answer (callId : String)
  | ice_candidate (callId : String)
deriving DecidableEq, Repr

/-- Which `getUserMedia` constraint set was requested: audio + HD video,
or audio only (`{ audio: true, video: false }`). -/
inductive MediaReq
  | videoHD
  | audioOnly
deriving DecidableEq, Repr

/-- Deferred state updates scheduled with `setTimeout` in the message handlers. -/
inductive TimeoutAction
  | revertDeclinedToIdle
  | revertToIdle
deriving DecidableEq, Repr

/-- Side effects emitted by the hook: REST calls, signaling sends,
peer-connection and media operations, and timer scheduling.
`stopTracks st` stops every track of the stream `st`
(`stream.getTracks().forEach(track => track.stop())`). -/
inductive Effect
  | restInitiateCall (receiverId : String) (callType : CallType)
  | restAcceptCall (callId : String)
  | restDeclineCall (callId : String)
  | restEndCall (callId : String)
  | wsSend (msg : OutMsg)
  | closePeerConnection
  | newPeerConnection
  | stopTracks (stream : LocalMediaStream)
  | attachTracks (stream : LocalMediaStream)
  | invokeGetUserMedia (req : MediaReq)
  | setDurationInterval
  | clearDurationInterval
  | invokeCreateOffer
  | invokeCreateAnswer (sdp : String)
  | invokeHandleRemoteAnswer (sdp : String)
  | invokeAddIceCandidate (cand : IceCandidate)
  | invokeStartLocalMedia (audioOnly : Bool)
  | scheduleTimeout (delayMs : Nat) (action : TimeoutAction)
deriving DecidableEq, Repr

/-- The full mutable state of one hook instance: the `callState` React state,
the `error` and `incomingCall` React states, whether `peerConnectionRef.current`
is non-null, whether the websocket is open (`readyState === OPEN`), and whether
`durationIntervalRef.current` is non-null. -/
structure HookState where
  callState : CallState
  error : Option String
  incomingCall : Option IncomingCall
  peerConnection : Bool
  wsOpen : Bool
  durationTimer : Bool
deriving DecidableEq, Repr

/-- JavaScript nullish coalescing `x ?? fallback` on an optional string
(`some ""` is kept: `??` does not test for falsiness). -/
def jsNullish (x : Option String) (fallback : Option String) : Option String :=
  match x with
  | some v => some v
  | none => fallback

/-- Inbound signaling messages dispatched by `ws.onmessage`.  Negotiation
messages carry `payload?.call_id` which may be absent (`Option String`). -/
inductive InMsg
  | incoming_call (callId callerId callerName : String) (callType : CallType)
  | call_ringing (callId : Option String)
  | call_accepted (callId : Option String)
  | participants_ready (callId : Option String)
  | offer (callId : Option String) (sdp : String)
  | answer (callId : Option String) (sdp : String)
  | ice_candidate (callId : Option String) (cand : IceCandidate)
  | call_ended
  | call_declined
  | call_busy
  | no_answer
deriving DecidableEq, Repr

/-- Errors thrown by `getUserMedia` (or rethrown to the caller):
a `DOMException` with a `name`, a plain `Error` with a `message`,
or some other thrown value. -/
inductive MediaErr
  | domException (name : String)
  | plainError (message : String)
  | otherValue
deriving DecidableEq, Repr

/-- `handleMediaAccessError`: the user-facing message chosen for a media error. -/
def mediaErrMessage : MediaErr → String
  | .domException n =>
      if n = "NotAllowedError" || n = "PermissionDeniedError" || n = "SecurityError" then
        "Camera/Mic access was blocked. Please allow permissions and try again."
      else if n = "NotFoundError" || n = "DevicesNotFoundError" then
        "No camera or microphone detected. Connect a device and retry."
      else "Failed to access camera or microphone"
  | .plainError m => m
  | .otherValue => "Failed to access camera or microphone"

/-- `handleMediaAccessError(err)`: sets `error` and clears
`localStream` / `isAudio` / `isVideo`. -/
def handleMediaAccessError (err : MediaErr) (s : HookState) : HookState :=
  { s with
      error := some (mediaErrMessage err),
      callState := { s.callState with localStream := none, isAudio := false, isVideo := false } }

/-- `blockedByPermissions` test of `startLocalMedia`:
`err instanceof DOMException && (name === 'NotAllowedError' || name === 'SecurityError')`. -/
def blockedByPermissions : MediaErr → Bool
  | .domException n => n == "NotAllowedError" || n == "SecurityError"
  | _ => false

/-- Environment for `startLocalMedia`: the outcome `getUserMedia` would give
for the audio+video constraints and for the audio-only constraints. -/
structure MediaEnv where
  videoOutcome : Except MediaErr LocalMediaStream
  audioOutcome : Except MediaErr LocalMediaStream

/-- State update of a successful `requestStream(constraints)`:
`localStream := stream`, `isAudio := true` (audio is requested in both
constraint sets), `isVideo := !!constraints.video && typeof video !== 'boolean'`
(true exactly for the HD-video constraint set). -/
def requestStreamSuccessState (req : MediaReq) (stream : LocalMediaStream) (s : HookState) :
    HookState :=
  { s with callState := { s.callState with
      localStream := some stream,
      isAudio := true,
      isVideo := req == MediaReq.videoHD } }

/-- Effects of a successful `requestStream`: the device request itself, and —
when a peer connection already exists — attaching every track to it. -/
def requestStreamSuccessEffects (req : MediaReq) (stream : LocalMediaStream) (s : HookState) :
    List Effect :=
  [Effect.invokeGetUserMedia req] ++
    (if s.peerConnection then [Effect.attachTracks stream] else [])

/-- `startLocalMedia(audioOnly)`: requests the media, and on a failed video
request that was blocked by permissions (`NotAllowedError` / `SecurityError`)
retries audio-only, setting a non-fatal error message and `isVideo := false`;
every other failure goes to `handleMediaAccessError` and is rethrown
(returned as `Except.error`). -/
def startLocalMedia (audioOnly : Bool) (env : MediaEnv) (s : HookState) :
    HookState × List Effect × Except MediaErr LocalMediaStream :=
  let req := if audioOnly then MediaReq.audioOnly else MediaReq.videoHD
  match (if audioOnly then env.audioOutcome else env.videoOutcome) with
  | .ok stream =>
      (requestStreamSuccessState req stream s, requestStreamSuccessEffects req stream s, .ok stream)
  | .error err =>
      if !audioOnly && blockedByPermissions err then
        match env.audioOutcome with
        | .ok fb =>
            let s2 := requestStreamSuccessState MediaReq.audioOnly fb s
            ({ s2 with
                error := some "Camera access blocked. Continuing with audio-only.",
                callState := { s2.callState with isVideo := false } },
             [Effect.invokeGetUserMedia req] ++ requestStreamSuccessEffects MediaReq.audioOnly fb s,
             .ok fb)
        | .error fbErr =>
            (handleMediaAccessError fbErr s,
             [Effect.invokeGetUserMedia req, Effect.invokeGetUserMedia MediaReq.audioOnly],
             .error fbErr)
      else
        (handleMediaAccessError err s, [Effect.invokeGetUserMedia req], .error err)

/-- `initializePeerConnection`: closes any existing peer connection and
creates a fresh one. -/
def initializePeerConnection (s : HookState) : HookState × List Effect :=
  ({ s with peerConnection := true },
   (if s.peerConnection then [Effect.closePeerConnection] else []) ++ [Effect.newPeerConnection])

/-- `stream.getTracks().forEach(track => track.stop())` guarded by `?.` —
stops all tracks when a stream is present, silently does nothing otherwise. -/
def stopTrackEffects : Option LocalMediaStream → List Effect
  | some st => [Effect.stopTracks st]
  | none => []

/-- The `setCallState` part of `performCleanup`: terminal status, and every
per-call field reset. -/
def cleanupCallState (finalStatus : CallStatus) (cs : CallState) : CallState :=
  { cs with
      status := finalStatus,
      callId := none,
      localStream := none,
      remoteStream := none,
      callDuration := 0,
      isInitiator := false }

/-- `performCleanup(finalStatus)`: close the peer connection, clear the
duration interval, stop the local tracks, reset the per-call state and clear
`incomingCall`. -/
def performCleanup (finalStatus : CallStatus) (s : HookState) : HookState × List Effect :=
  ({ s with
      peerConnection := false,
      durationTimer := false,
      incomingCall := none,
      callState := cleanupCallState finalStatus s.callState },
   (if s.peerConnection then [Effect.closePeerConnection] else []) ++
   (if s.durationTimer then [Effect.clearDurationInterval] else []) ++
   stopTrackEffects s.callState.localStream)

/-- The REST + signaling sends of `endCall`: only when the resolved call id is
truthy (non-null and non-empty), one `end_call` REST request and — when the
websocket is open — one `end_call` signaling message. -/
def endCallSendEffects (callId : Option String) (wsOpen : Bool) : List Effect :=
  match callId with
  | some c =>
      if c.isEmpty then []
      else [Effect.restEndCall c] ++ (if wsOpen then [Effect.wsSend (OutMsg.end_call c)] else [])
  | none => []

/-- `endCall(overrideCallId?, finalStatus = 'ended')`: resolve the call id
(`overrideCallId ?? callStateRef.current.callId`), best-effort notify backend
and peer, then `performCleanup(finalStatus)`. -/
def endCall (overrideCallId : Option String) (finalStatus : CallStatus) (s : HookState) :
    HookState × List Effect :=
  let currentCallId := jsNullish overrideCallId s.callState.callId
  ((performCleanup finalStatus s).1,
   endCallSendEffects currentCallId s.wsOpen ++ (performCleanup finalStatus s).2)

/-- The guard of the `offer` / `answer` / `ice_candidate` cases:
`!message.payload?.call_id || message.payload.call_id !== callStateRef.current.callId`
refuses the message; processing happens exactly when the payload call id is
truthy and strictly equal to the session's current `callId`. -/
def negotiationGuardOk (payloadCallId : Option String) (currentCallId : Option String) : Bool :=
  match payloadCallId with
  | none => false
  | some c => !c.isEmpty && (currentCallId == some c)

/-- `ws.onmessage`: dispatch of one inbound signaling message.  State reads
inside a handler (`callStateRef.current`, `peerConnectionRef.current`) see the
pre-message state, because React state updates are applied after the handler. -/
def onMessage (m : InMsg) (s : HookState) : HookState × List Effect :=
  match m with
  | .incoming_call cid callerId callerName ct =>
      let inc : IncomingCall :=
        { callId := cid, fromUser := { id := callerId, name := callerName }, callType := ct }
      ({ s with incomingCall := some inc }, [])
  | .call_ringing cid =>
      ({ s with callState := { s.callState with
            status := .ringing, callId := jsNullish cid s.callState.callId } },
       [])
  | .call_accepted cid =>
      let s1 := { s with callState := { s.callState with
            status := .connected, callId := jsNullish cid s.callState.callId } }
      let pcStep := if s.peerConnection then (s1, ([] : List Effect)) else initializePeerConnection s1
      (pcStep.1,
       pcStep.2 ++
         (if s.callState.localStream.isNone then
            [Effect.invokeStartLocalMedia (s.callState.callType == CallType.audio)]
          else []))
  | .participants_ready cid =>
      ({ s with callState := { s.callState with
            status := .connected, callId := jsNullish cid s.callState.callId } },
       if s.callState.isInitiator then [Effect.invokeCreateOffer] else [])
  | .offer cid sdp =>
      if negotiationGuardOk cid s.callState.callId then (s, [Effect.invokeCreateAnswer sdp])
      else (s, [])
  | .answer cid sdp =>
      if negotiationGuardOk cid s.callState.callId then (s, [Effect.invokeHandleRemoteAnswer sdp])
      else (s, [])
  | .ice_candidate cid cand =>
      if negotiationGuardOk cid s.callState.callId then (s, [Effect.invokeAddIceCandidate cand])
      else (s, [])
  | .call_ended => endCall none .ended s
  | .call_declined =>
      ({ s with callState := { s.callState with
            status := .declined, callId := none, localStream := none,
            remoteStream := none, callDuration := 0, isInitiator := false } },
       stopTrackEffects s.callState.localStream ++
         [Effect.scheduleTimeout 1500 TimeoutAction.revertDeclinedToIdle])
  | .call_busy =>
      ({ s with callState := { s.callState with status := .busy } },
       [Effect.scheduleTimeout 2000 TimeoutAction.revertToIdle])
  | .no_answer =>
      ({ s with callState := { s.callState with status := .no_answer } },
       [Effect.scheduleTimeout 2000 TimeoutAction.revertToIdle])

/-- Running a scheduled `setTimeout` callback on the then-current state. -/
def runTimeoutAction : TimeoutAction → HookState → HookState
  | .revertDeclinedToIdle, s =>
      if s.callState.status == CallStatus.declined then
        { s with callState := { s.callState with status := .idle } }
      else s
  | .revertToIdle, s => { s with callState := { s.callState with status := .idle } }

/-- The timeout callbacks scheduled inside an effect list, in order. -/
def scheduledActions (effs : List Effect) : List TimeoutAction :=
  effs.filterMap (fun e =>
    match e with
    | .scheduleTimeout _ a => some a
    | _ => none)

/-- Let every timeout scheduled by `effs` elapse (in scheduling order). -/
def elapseAll (effs : List Effect) (s : HookState) : HookState :=
  (scheduledActions effs).foldl (fun st a => runTimeoutAction a st) s

/-- The `detail` object an HTTP 409/404 error response may carry on
`initiateCall` (`{ call_id?, message?, status? }`; `status` is unused there). -/
structure ErrDetail where
  call_id : Option String
  message : Option String
deriving DecidableEq, Repr

/-- Errors thrown inside `startCall`: an HTTP error (axios error with a
response status, optional detail payload and the error's own `message`),
a `DOMException`, a plain `Error`, or some other thrown value. -/
inductive StartErr
  | http (status : Nat) (detail : Option ErrDetail) (message : String)
  | domException (name : String)
  | plainError (message : String)
  | otherThrown
deriving DecidableEq, Repr

/-- `axiosError?.response?.status` for a `startCall` error. -/
def startErrStatusCode : StartErr → Option Nat
  | .http st _ _ => some st
  | _ => none

/-- The extracted `detail` payload for a `startCall` error. -/
def startErrDetail : StartErr → Option ErrDetail
  | .http _ d _ => d
  | _ => none

/-- Environment of one `startCall` invocation: the backend response to
`initiateCall` (`ok` carries `response.data.id`) and the media environment. -/
structure StartEnv where
  initiateOutcome : Except StartErr String
  media : MediaEnv

/-- The local `cleanup()` closure of `startCall`: close the peer connection,
stop local tracks and reset the per-call state to `idle`
(it does not touch `incomingCall` or the duration interval ref). -/
def startCallLocalCleanup (s : HookState) : HookState × List Effect :=
  ({ s with
      peerConnection := false,
      callState := { s.callState with
        status := .idle, callId := none, localStream := none,
        remoteStream := none, callDuration := 0, isInitiator := false } },
   (if s.peerConnection then [Effect.closePeerConnection] else []) ++
     stopTrackEffects s.callState.localStream)

/-- The `setError` decisions of the `startCall` catch block. -/
def startCallErrorState (e : StartErr) (s : HookState) : HookState :=
  if startErrStatusCode e == some 409 then
    { s with error := some (((startErrDetail e).bind ErrDetail.message).getD
        "An active call already exists between you and this user. We will close it and you can try again.") }
  else if startErrStatusCode e == some 404 then
    { s with error := some "The participant is no longer available for calls." }
  else
    match e with
    | .domException _ => s
    | .plainError m => { s with error := some m }
    | .http _ _ m => { s with error := some m }
    | .otherThrown => { s with error := some "Failed to start call" }

/-- The teardown sends of the 409 branch of `startCall`: when the conflict
detail carries a truthy `call_id`, an `end_call` REST request for it and —
websocket permitting — an `end_call` signaling message for it. -/
def start409EndEffects (e : StartErr) (wsOpen : Bool) : List Effect :=
  if startErrStatusCode e == some 409 then
    match (startErrDetail e).bind ErrDetail.call_id with
    | some c =>
        if c.isEmpty then []
        else [Effect.restEndCall c] ++
          (if wsOpen then [Effect.wsSend (OutMsg.end_call c)] else [])
    | none => []
  else []

/-- `startCall(receiverId, receiverName, callType)`: requires an open
websocket; issues the `initiateCall` REST request; on success registers the
session (`status := calling`, `isInitiator := true`), creates the peer
connection, sends the `initiate_call` signaling message and attempts local
media (failures swallowed); on error sets a message, tears down any
conflicting call (409) and runs the local cleanup.  `newCallId` stays null
whenever the REST request itself failed, so no `end_call` for a fresh id is
sent on the error path. -/
def startCall (receiverId receiverName : String) (callType : CallType)
    (currentUserName : Option String) (env : StartEnv) (s : HookState) :
    HookState × List Effect :=
  if !s.wsOpen then
    startCallLocalCleanup { s with error := some "WebSocket is not connected" }
  else
    match env.initiateOutcome with
    | .ok newCallId =>
        let s1 := { s with callState := { s.callState with
              callId := some newCallId, callType := callType, status := .calling,
              remoteUser := some { id := receiverId, name := receiverName },
              isInitiator := true } }
        let pcStep := initializePeerConnection s1
        let mediaStep := startLocalMedia (callType == CallType.audio) env.media pcStep.1
        (mediaStep.1,
         Effect.restInitiateCall receiverId callType ::
           (pcStep.2 ++
            [Effect.wsSend (OutMsg.initiate_call newCallId receiverId receiverName
                (currentUserName.getD "User") callType)] ++
            mediaStep.2.1))
    | .error e =>
        let cleanStep := startCallLocalCleanup (startCallErrorState e s)
        (cleanStep.1,
         Effect.restInitiateCall receiverId callType ::
           (start409EndEffects e s.wsOpen ++ cleanStep.2))

/-- `detail` payload of an `acceptCall` error response: either an object
`{ call_id?, message?, status? }` or a bare string. -/
inductive AcceptDetail
  | obj (call_id : Option String) (message : Option String) (status : Option String)
  | str (text : String)
deriving DecidableEq, Repr

/-- Errors thrown inside `acceptCall`. -/
inductive AcceptErr
  | http (status : Nat) (detail : Option AcceptDetail) (message : String)
  | domException (name : String)
  | plainError (message : String)
  | otherThrown
deriving DecidableEq, Repr

/-- `axiosError?.response?.status` for an `acceptCall` error. -/
def acceptErrStatusCode : AcceptErr → Option Nat
  | .http st _ _ => some st
  | _ => none

/-- The extracted `detail` payload for an `acceptCall` error. -/
def acceptErrDetail : AcceptErr → Option AcceptDetail
  | .http _ d _ => d
  | _ => none

/-- `detailMessage`: the string detail itself, or `detail.message ?? detail.status`. -/
def acceptDetailMessage : Option AcceptDetail → Option String
  | some (.str t) => some t
  | some (.obj _ m st) =>
      match m with
      | some mm => some mm
      | none => st
  | none => none

/-- Lower-casing as JavaScript `toLowerCase()` does for the ASCII messages
involved here. -/
def lowerStr (s : String) : String := String.mk (s.data.map Char.toLower)

/-- nb is a leading run of the character list hs. -/
def listStartsWith : List Char → List Char → Bool
  | _, [] => true
  | [], _ :: _ => false
  | a :: as, b :: bs => a == b && listStartsWith as bs

/-- nb occurs contiguously inside hs. -/
def listHasSub : List Char → List Char → Bool
  | [], needle => needle.isEmpty
  | a :: as, needle => listStartsWith (a :: as) needle || listHasSub as needle

/-- JavaScript `haystack.includes(needle)`. -/
def strIncludes (hay needle : String) : Bool := listHasSub hay.data needle.data

/-- The `alreadyAccepted` test of `acceptCall`: a 409 whose detail message,
lower-cased, contains the backend marker for an already-accepted call. -/
def acceptAlreadyAccepted (statusCode : Option Nat) (detailMessage : Option String) : Bool :=
  statusCode == some 409 &&
    (match detailMessage with
     | some m => strIncludes (lowerStr m) "status: callstatus.accepted"
     | none => false)

/-- `setError` decisions of the non-idempotent `acceptCall` failure branch. -/
def acceptFailState (e : AcceptErr) (s : HookState) : HookState :=
  if acceptErrStatusCode e == some 409 then
    { s with error := some ((acceptDetailMessage (acceptErrDetail e)).getD
        "This call is no longer available to accept.") }
  else if acceptErrStatusCode e == some 404 then
    { s with error := some "Call not found or already ended." }
  else
    match e with
    | .domException _ => s
    | .plainError m => { s with error := some m }
    | .http _ _ m => { s with error := some m }
    | .otherThrown => { s with error := some "Failed to accept call" }

/-- `targetCallId` of the `acceptCall` failure branch: the conflicting call id
from an object detail payload, defaulting to the incoming call's id. -/
def acceptTargetCallId (e : AcceptErr) (fallback : String) : String :=
  (match acceptErrDetail e with
   | some (.obj (some c) _ _) => some c
   | _ => none).getD fallback

/-- The local `cleanup()` closure of `acceptCall`: like `startCall`'s, but it
does not reset `isInitiator`. -/
def acceptCallCleanup (s : HookState) : HookState × List Effect :=
  ({ s with
      peerConnection := false,
      callState := { s.callState with
        status := .idle, callId := none, localStream := none,
        remoteStream := none, callDuration := 0 } },
   (if s.peerConnection then [Effect.closePeerConnection] else []) ++
     stopTrackEffects s.callState.localStream)

/-- Environment of one `acceptCall` invocation: the backend response to
`acceptCall` and the media environment. -/
structure AcceptEnv where
  outcome : Except AcceptErr Unit
  media : MediaEnv

/-- The `canProceed` continuation of `acceptCall` (reached on REST success and
on an idempotent already-accepted 409): register the connected session, create
the peer connection, send `accept_call`, attempt local media (failures
swallowed) and clear the incoming-call notice. -/
def acceptProceed (inc : IncomingCall) (resolvedCallType : CallType) (menv : MediaEnv)
    (s : HookState) : HookState × List Effect :=
  let s1 := { s with callState := { s.callState with
        callId := some inc.callId, callType := resolvedCallType, status := .connected,
        remoteUser := some inc.fromUser, isInitiator := false } }
  let pcStep := initializePeerConnection s1
  let sendEffs :=
    if s.wsOpen then [Effect.wsSend (OutMsg.accept_call inc.callId resolvedCallType)] else []
  let mediaStep := startLocalMedia (resolvedCallType == CallType.audio) menv pcStep.1
  ({ mediaStep.1 with incomingCall := none }, pcStep.2 ++ sendEffs ++ mediaStep.2.1)

/-- `acceptCall(callType?)`: no-op without an incoming call; otherwise issue
the `acceptCall` REST request and either proceed (success, or 409 whose
message marks the call as already accepted) or fail: set an error, tear down
the target call (REST `end_call` plus signaling when open), clear the notice
and run the local cleanup. -/
def acceptCall (override : Option CallType) (env : AcceptEnv) (s : HookState) :
    HookState × List Effect :=
  match s.incomingCall with
  | none => (s, [])
  | some inc =>
    let resolvedCallType := override.getD inc.callType
    match env.outcome with
    | .ok _ =>
        let step := acceptProceed inc resolvedCallType env.media s
        (step.1, Effect.restAcceptCall inc.callId :: step.2)
    | .error e =>
        if acceptAlreadyAccepted (acceptErrStatusCode e)
            (acceptDetailMessage (acceptErrDetail e)) then
          let step := acceptProceed inc resolvedCallType env.media s
          (step.1, Effect.restAcceptCall inc.callId :: step.2)
        else
          let target := acceptTargetCallId e inc.callId
          let cleanStep :=
            acceptCallCleanup { (acceptFailState e s) with incomingCall := none }
          (cleanStep.1,
           Effect.restAcceptCall inc.callId ::
             (Effect.restEndCall target ::
               (if s.wsOpen then [Effect.wsSend (OutMsg.end_call target)] else []) ++
               cleanStep.2))

/-- Flip the `enabled` property of an audio track, leave other tracks alone. -/
def flipAudioTrack (t : MediaTrack) : MediaTrack :=
  if t.kind == TrackKind.audio then { t with enabled := !t.enabled } else t

/-- Flip the `enabled` property of a video track, leave other tracks alone. -/
def flipVideoTrack (t : MediaTrack) : MediaTrack :=
  if t.kind == TrackKind.video then { t with enabled := !t.enabled } else t

/-- `toggleAudio`: flip `enabled` on every audio track of the local stream (if
any) and flip the `isAudio` flag unconditionally; nothing else, no effects. -/
def toggleAudio (s : HookState) : HookState × List Effect :=
  ({ s with callState := { s.callState with
        localStream := s.callState.localStream.map
          (fun st => { st with tracks := st.tracks.map flipAudioTrack }),
        isAudio := !s.callState.isAudio } },
   [])

/-- `toggleVideo`: flip `enabled` on every video track of the local stream (if
any) and flip the `isVideo` flag unconditionally; nothing else, no effects. -/
def toggleVideo (s : HookState) : HookState × List Effect :=
  ({ s with callState := { s.callState with
        localStream := s.callState.localStream.map
          (fun st => { st with tracks := st.tracks.map flipVideoTrack }),
        isVideo := !s.callState.isVideo } },
   [])

/-- Body of the duration-timer `useEffect` (runs when `status` changes): start
the interval exactly when `connected`, otherwise clear a running one.
Returns the new interval-ref state and the effects. -/
def durationEffectRun (status : CallStatus) (timerRunning : Bool) : Bool × List Effect :=
  if status == CallStatus.connected then (true, [Effect.setDurationInterval])
  else if timerRunning then (false, [Effect.clearDurationInterval])
  else (timerRunning, [])

/-- The cleanup function returned by the duration-timer `useEffect` (runs
before each re-run and on unmount): clear a running interval. -/
def durationEffectCleanup (timerRunning : Bool) : Bool × List Effect :=
  if timerRunning then (false, [Effect.clearDurationInterval]) else (timerRunning, [])

/-- The interval callback: `callDuration := callDuration + 1`. -/
def durationTick (cs : CallState) : CallState :=
  { cs with callDuration := cs.callDuration + 1 }

/-- Is this effect an `end_call` REST request? -/
def effIsRestEnd : Effect → Bool
  | .restEndCall _ => true
  | _ => false

/-- Is this effect an `end_call` signaling send? -/
def effIsWsEnd : Effect → Bool
  | .wsSend (OutMsg.end_call _) => true
  | _ => false

/-- Is this effect an `initiateCall` REST request? -/
def effIsRestInitiate : Effect → Bool
  | .restInitiateCall _ _ => true
  | _ => false

/-- Is this effect an `initiate_call` signaling send? -/
def effIsWsInitiate : Effect → Bool
  | .wsSend (OutMsg.initiate_call _ _ _ _ _) => true
  | _ => false

/-- Is this effect any signaling send? -/
def effIsWsSendAny : Effect → Bool
  | .wsSend _ => true
  | _ => false

/-- Did a media acquisition end in a thrown error? -/
def mediaFailed : Except MediaErr LocalMediaStream → Bool
  | .error _ => true
  | .ok _ => false

/-- The `StartEnv` of an `initiateCall` attempt answered 409 with a conflict
detail carrying the stale call id and a message. -/
def conflict409Env (x msg axm : String) (menv : MediaEnv) : StartEnv :=
  { initiateOutcome :=
      Except.error (StartErr.http 409 (some { call_id := some x, message := some msg }) axm),
    media := menv }

/-! Concrete fixtures used by witnesses and counterexamples. -/

/-- A local stream with one audio and one video track, both enabled. -/
def sampleStream : LocalMediaStream :=
  { tracks := [{ kind := .audio, enabled := true }, { kind := .video, enabled := true }] }

/-- A session in the middle of a connected video call with id `call-A`. -/
def connectedState : HookState :=
  { callState :=
      { callId := some "call-A", callType := .video, status := .connected,
        remoteStream := some 1, localStream := some sampleStream,
        isAudio := true, isVideo := true,
        remoteUser := some { id := "user-2", name := "Bee" },
        callDuration := 5, isInitiator := true },
    error := none, incomingCall := none, peerConnection := true, wsOpen := true,
    durationTimer := true }

/-- A local stream holding a single enabled audio track. -/
def audioOnlyStream : LocalMediaStream :=
  { tracks := [{ kind := .audio, enabled := true }] }

/-- A fresh idle session with an open websocket. -/
def idleState : HookState :=
  { callState :=
      { callId := none, callType := .video, status := .idle,
        remoteStream := none, localStream := none,
        isAudio := true, isVideo := true, remoteUser := none,
        callDuration := 0, isInitiator := false },
    error := none, incomingCall := none, peerConnection := false, wsOpen := true,
    durationTimer := false }

/-- A media environment where both constraint sets succeed. -/
def happyMediaEnv : MediaEnv :=
  { videoOutcome := .ok sampleStream, audioOutcome := .ok audioOnlyStream }

/-- A start environment whose `initiateCall` succeeds with id `call-N`. -/
def okStartEnv : StartEnv :=
  { initiateOutcome := .ok "call-N", media := happyMediaEnv }

/-- A media environment where the camera+mic request dies with
`NotFoundError` although an audio-only request would succeed. -/
def notFoundEnv : MediaEnv :=
  { videoOutcome := .error (.domException "NotFoundError"),
    audioOutcome := .ok audioOnlyStream }

/-- A media environment where the camera+mic request is blocked by
permissions and the audio-only fallback succeeds. -/
def permBlockedEnv : MediaEnv :=
  { videoOutcome := .error (.domException "NotAllowedError"),
    audioOutcome := .ok audioOnlyStream }

/-- An incoming video-call notice for `call-I`. -/
def incomingSample : IncomingCall :=
  { callId := "call-I", fromUser := { id := "user-3", name := "Cee" }, callType := .video }

/-- The idle fixture with the incoming-call notice pending. -/
def ringingIncomingState : HookState :=
  { idleState with incomingCall := some incomingSample }

/-- A backend 409 message marking the call as already accepted. -/
def accepted409Msg : String := "Cannot accept call in status: CallStatus.ACCEPTED"

/-- The accept error for an already-accepted 409. -/
def accept409AlreadyErr : AcceptErr :=
  AcceptErr.http 409 (some (.str accepted409Msg)) "Request failed with status code 409"

/-! ## Claim C8 -/

/-- Claim C8: end-call is idempotent — a second `endCall` right after a first
one, or a `call_ended` message arriving after ending locally, leaves the state
exactly as the first invocation left it and emits no effects at all (no second
`end_call` REST request or signaling message, no peer-connection or track
operations). -/
theorem endCall_idempotent (s : HookState) :
    endCall none .ended (endCall none .ended s).1 = ((endCall none .ended s).1, []) ∧
    onMessage InMsg.call_ended (endCall none .ended s).1 = ((endCall none .ended s).1, []) := by
  cases s with
  | mk cs err inc pc ws dt =>
    cases cs
    exact ⟨rfl, rfl⟩

/-! ## Claim C1 -/

/-- Claim C1 is refuted at a concrete input: a `call_ringing` message tagged
with `call-B` arriving while the session's current `callId` is `call-A` does
not leave the session unchanged — it forces `status := ringing` and adopts the
foreign id `call-B`. -/
theorem foreign_call_ringing_not_ignored :
    some "call-B" ≠ connectedState.callState.callId ∧
    (onMessage (InMsg.call_ringing (some "call-B")) connectedState).1 ≠ connectedState ∧
    (onMessage (InMsg.call_ringing (some "call-B")) connectedState).1.callState.callId
      = some "call-B" ∧
    (onMessage InMsg.call_ended connectedState).1.callState.status = CallStatus.ended := by
  decide

/-- Claim C1 (amended): only the negotiation messages (`offer`, `answer`,
`ice_candidate`) are ignored when their `call_id` differs from the session's
current `callId` — for those the state is unchanged and no effect is emitted;
`call_ringing`, `call_accepted`, `participants_ready` and `call_ended` are
processed without comparing the tag. -/
theorem negotiation_mismatch_ignored (s : HookState) (c sdp : String) (cand : IceCandidate)
    (h : s.callState.callId ≠ some c) :
    onMessage (InMsg.offer (some c) sdp) s = (s, []) ∧
    onMessage (InMsg.answer (some c) sdp) s = (s, []) ∧
    onMessage (InMsg.ice_candidate (some c) cand) s = (s, []) := by
  have hb : (s.callState.callId == some c) = false := by
    exact beq_eq_false_iff_ne.mpr h
  have hg : negotiationGuardOk (some c) s.callState.callId = false := by
    unfold negotiationGuardOk
    simp [hb]
  refine ⟨?_, ?_, ?_⟩ <;> simp [onMessage, hg]

/-- Witness for the amended C1 at a concrete mismatched offer. -/
theorem negotiation_mismatch_ignored_w :
    connectedState.callState.callId ≠ some "call-B" ∧
    onMessage (InMsg.offer (some "call-B") "sdp-x") connectedState = (connectedState, []) := by
  refine ⟨by decide, ?_⟩
  exact (negotiation_mismatch_ignored connectedState "call-B" "sdp-x"
    { candidate := "cand", sdpMLineIndex := 0, sdpMid := "0" } (by decide)).1

/-! ## Claim C10 -/

/-- Claim C10: `toggleAudio` (resp. `toggleVideo`) flips `isAudio` (resp.
`isVideo`) unconditionally — even with a null `localStream` — changes no other
field of the session, emits no effect (no signaling, no device release or
re-acquisition), and when a stream is present flips exactly the `enabled`
property of every audio (resp. video) track in place, preserving each track's
kind and the other kind's tracks. -/
theorem toggle_flags_frame (s : HookState) (t : MediaTrack) :
    (toggleAudio s).2 = [] ∧ (toggleVideo s).2 = [] ∧
    (toggleAudio s).1.callState.isAudio = !s.callState.isAudio ∧
    (toggleVideo s).1.callState.isVideo = !s.callState.isVideo ∧
    (toggleAudio s).1.callState.isVideo = s.callState.isVideo ∧
    (toggleVideo s).1.callState.isAudio = s.callState.isAudio ∧
    (toggleAudio s).1.callState.status = s.callState.status ∧
    (toggleVideo s).1.callState.status = s.callState.status ∧
    (toggleAudio s).1.callState.callId = s.callState.callId ∧
    (toggleVideo s).1.callState.callId = s.callState.callId ∧
    (toggleAudio s).1.callState.callType = s.callState.callType ∧
    (toggleVideo s).1.callState.callType = s.callState.callType ∧
    (toggleAudio s).1.callState.remoteUser = s.callState.remoteUser ∧
    (toggleVideo s).1.callState.remoteUser = s.callState.remoteUser ∧
    (toggleAudio s).1.callState.remoteStream = s.callState.remoteStream ∧
    (toggleVideo s).1.callState.remoteStream = s.callState.remoteStream ∧
    (toggleAudio s).1.callState.callDuration = s.callState.callDuration ∧
    (toggleVideo s).1.callState.callDuration = s.callState.callDuration ∧
    (toggleAudio s).1.callState.isInitiator = s.callState.isInitiator ∧
    (toggleVideo s).1.callState.isInitiator = s.callState.isInitiator ∧
    (toggleAudio s).1.error = s.error ∧ (toggleVideo s).1.error = s.error ∧
    (toggleAudio s).1.incomingCall = s.incomingCall ∧
    (toggleVideo s).1.incomingCall = s.incomingCall ∧
    (toggleAudio s).1.peerConnection = s.peerConnection ∧
    (toggleVideo s).1.peerConnection = s.peerConnection ∧
    (toggleAudio s).1.wsOpen = s.wsOpen ∧ (toggleVideo s).1.wsOpen = s.wsOpen ∧
    (toggleAudio s).1.durationTimer = s.durationTimer ∧
    (toggleVideo s).1.durationTimer = s.durationTimer ∧
    (toggleAudio s).1.callState.localStream.isSome = s.callState.localStream.isSome ∧
    (toggleVideo s).1.callState.localStream.isSome = s.callState.localStream.isSome ∧
    (s.callState.localStream = none → (toggleAudio s).1.callState.localStream = none) ∧
    (s.callState.localStream = none → (toggleVideo s).1.callState.localStream = none) ∧
    (∀ st, s.callState.localStream = some st →
        (toggleAudio s).1.callState.localStream
          = some { st with tracks := st.tracks.map flipAudioTrack }) ∧
    (∀ st, s.callState.localStream = some st →
        (toggleVideo s).1.callState.localStream
          = some { st with tracks := st.tracks.map flipVideoTrack }) ∧
    (flipAudioTrack t).kind = t.kind ∧ (flipVideoTrack t).kind = t.kind ∧
    (t.kind = TrackKind.audio → (flipAudioTrack t).enabled = !t.enabled) ∧
    (t.kind ≠ TrackKind.audio → (flipAudioTrack t).enabled = t.enabled) ∧
    (t.kind = TrackKind.video → (flipVideoTrack t).enabled = !t.enabled) ∧
    (t.kind ≠ TrackKind.video → (flipVideoTrack t).enabled = t.enabled) := by
  refine ⟨rfl, rfl, rfl, rfl, rfl, rfl, rfl, rfl, rfl, rfl, rfl, rfl, rfl, rfl, rfl, rfl,
    rfl, rfl, rfl, rfl, rfl, rfl, rfl, rfl, rfl, rfl, rfl, rfl, rfl, rfl,
    ?_, ?_, ?_, ?_, ?_, ?_, ?_, ?_, ?_, ?_, ?_, ?_⟩
  · simp [toggleAudio]
  · simp [toggleVideo]
  · intro h; simp [toggleAudio, h]
  · intro h; simp [toggleVideo, h]
  · intro st h; simp [toggleAudio, h]
  · intro st h; simp [toggleVideo, h]
  · unfold flipAudioTrack; split <;> rfl
  · unfold flipVideoTrack; split <;> rfl
  · intro h; unfold flipAudioTrack; simp [h]
  · intro h; unfold flipAudioTrack
    have : (t.kind == TrackKind.audio) = false := beq_eq_false_iff_ne.mpr h
    simp [this]
  · intro h; unfold flipVideoTrack; simp [h]
  · intro h; unfold flipVideoTrack
    have : (t.kind == TrackKind.video) = false := beq_eq_false_iff_ne.mpr h
    simp [this]

/-- Witness for C10 at the connected fixture with its two-track stream. -/
theorem toggle_flags_frame_w :
    connectedState.callState.localStream = some sampleStream ∧
    (toggleAudio connectedState).1.callState.localStream
      = some { sampleStream with tracks := sampleStream.tracks.map flipAudioTrack } ∧
    ({ kind := TrackKind.audio, enabled := true } : MediaTrack).kind = TrackKind.audio ∧
    (flipAudioTrack { kind := TrackKind.audio, enabled := true }).enabled = !(true : Bool) := by
  obtain ⟨h1, h2, h3, h4, h5, h6, h7, h8, h9, h10, h11, h12, h13, h14, h15, h16, h17, h18,
      h19, h20, h21, h22, h23, h24, h25, h26, h27, h28, h29, h30, h31, h32, h33, h34, h35,
      h36, h37, h38, h39, h40, h41, h42⟩ :=
    toggle_flags_frame connectedState { kind := TrackKind.audio, enabled := true }
  exact ⟨by decide, h35 sampleStream (by decide), by decide, h39 (by decide)⟩

/-! ## Claim C5 -/

/-- Claim C5: the duration counter increments by exactly one per interval tick,
the interval is running after the status effect settles exactly when the
status is `connected`, it is cleared whenever the status leaves `connected`,
the effect's cleanup (unmount / re-run) always leaves it stopped, and
`performCleanup` also cancels it. -/
theorem duration_timer_connected_only (st : CallStatus) (t : Bool) (cs : CallState)
    (fs : CallStatus) (s : HookState) :
    ((durationEffectRun st t).1 = true ↔ st = CallStatus.connected) ∧
    (durationTick cs).callDuration = cs.callDuration + 1 ∧
    (durationTick cs).status = cs.status ∧
    (durationTick cs).callId = cs.callId ∧
    (durationTick cs).localStream = cs.localStream ∧
    (st ≠ CallStatus.connected → t = true →
        (durationEffectRun st t).1 = false ∧
        Effect.clearDurationInterval ∈ (durationEffectRun st t).2) ∧
    (durationEffectCleanup t).1 = false ∧
    (t = true → Effect.clearDurationInterval ∈ (durationEffectCleanup t).2) ∧
    (performCleanup fs s).1.durationTimer = false ∧
    (s.durationTimer = true → Effect.clearDurationInterval ∈ (performCleanup fs s).2) := by
  refine ⟨?_, rfl, rfl, rfl, rfl, ?_, ?_, ?_, rfl, ?_⟩
  · unfold durationEffectRun
    cases st <;> cases t <;> simp
  · intro hne ht
    have hb : (st == CallStatus.connected) = false := beq_eq_false_iff_ne.mpr hne
    unfold durationEffectRun
    simp [hb, ht]
  · unfold durationEffectCleanup
    cases t <;> simp
  · intro ht
    unfold durationEffectCleanup
    simp [ht]
  · intro ht
    unfold performCleanup
    simp [ht]

/-- Witness for C5: leaving `connected` with a running timer clears it. -/
theorem duration_timer_connected_only_w :
    CallStatus.ended ≠ CallStatus.connected ∧
    (durationEffectRun CallStatus.ended true).1 = false ∧
    Effect.clearDurationInterval ∈ (durationEffectRun CallStatus.ended true).2 := by
  have h := (duration_timer_connected_only CallStatus.ended true connectedState.callState
      CallStatus.ended connectedState).2.2.2.2.2.1 (by decide) rfl
  exact ⟨by decide, h.1, h.2⟩

/-! ## Effect-classification helpers -/

/-- The sends of one `endCall` contain at most one `end_call` REST request, at
most one `end_call` signaling message, no timeout and no offer creation. -/
theorem endCallSendEffects_shape (cid : Option String) (w : Bool) :
    (endCallSendEffects cid w).countP effIsRestEnd ≤ 1 ∧
    (endCallSendEffects cid w).countP effIsWsEnd ≤ 1 ∧
    scheduledActions (endCallSendEffects cid w) = [] ∧
    Effect.invokeCreateOffer ∉ endCallSendEffects cid w := by
  unfold endCallSendEffects
  rcases cid with _ | c
  · simp [scheduledActions]
  · by_cases hc : c.isEmpty
    · simp [hc, scheduledActions]
    · cases w <;>
        simp [hc, scheduledActions, effIsRestEnd, effIsWsEnd, List.countP_cons, List.countP_nil]

/-- The cleanup effects contain no REST request, no signaling send, no timeout
and no offer creation. -/
theorem performCleanup_effects_shape (fs : CallStatus) (s : HookState) :
    (performCleanup fs s).2.countP effIsRestEnd = 0 ∧
    (performCleanup fs s).2.countP effIsWsEnd = 0 ∧
    scheduledActions (performCleanup fs s).2 = [] ∧
    Effect.invokeCreateOffer ∉ (performCleanup fs s).2 := by
  rcases hls : s.callState.localStream with _ | st <;>
    cases hpc : s.peerConnection <;> cases hdt : s.durationTimer <;>
      simp [performCleanup, stopTrackEffects, hls, hpc, hdt, scheduledActions,
        effIsRestEnd, effIsWsEnd, List.countP_cons, List.countP_nil]

/-! ## Claim C2 -/

/-- Claim C2 fails in one respect: ending a connected call leaves the status
at the terminal `ended` — no revert timer is scheduled, so even after every
scheduled timeout has elapsed the status is `ended`, never `idle`. -/
theorem ended_status_never_reverts_to_idle :
    connectedState.callState.status ≠ CallStatus.idle ∧
    scheduledActions (endCall none .ended connectedState).2 = [] ∧
    (elapseAll (endCall none .ended connectedState).2
        (endCall none .ended connectedState).1).callState.status = CallStatus.ended ∧
    CallStatus.ended ≠ CallStatus.idle := by
  decide

/-- Claim C2 (amended): ending a call from any non-idle state closes the peer
connection, stops every track of the local stream, clears `remoteStream` and
`callId`, resets `callDuration` to 0, and sends at most one `end_call` REST
request and at most one `end_call` signaling message; the status becomes the
terminal `ended` and stays there (no revert to `idle` is scheduled). -/
theorem endCall_cleanup (s : HookState) (h : s.callState.status ≠ CallStatus.idle) :
    (endCall none .ended s).1.peerConnection = false ∧
    (∀ st, s.callState.localStream = some st →
        Effect.stopTracks st ∈ (endCall none .ended s).2) ∧
    (endCall none .ended s).1.callState.remoteStream = none ∧
    (endCall none .ended s).1.callState.callDuration = 0 ∧
    (endCall none .ended s).1.callState.localStream = none ∧
    (endCall none .ended s).1.callState.callId = none ∧
    (endCall none .ended s).1.callState.status = CallStatus.ended ∧
    elapseAll (endCall none .ended s).2 (endCall none .ended s).1 = (endCall none .ended s).1 ∧
    (endCall none .ended s).2.countP effIsRestEnd ≤ 1 ∧
    (endCall none .ended s).2.countP effIsWsEnd ≤ 1 := by
  have heff : (endCall none .ended s).2
      = endCallSendEffects s.callState.callId s.wsOpen ++ (performCleanup .ended s).2 := rfl
  have h1 := endCallSendEffects_shape s.callState.callId s.wsOpen
  have h2 := performCleanup_effects_shape .ended s
  refine ⟨rfl, ?_, rfl, rfl, rfl, rfl, rfl, ?_, ?_, ?_⟩
  · intro st hst
    rw [heff]
    refine List.mem_append_right _ ?_
    simp [performCleanup, stopTrackEffects, hst]
  · unfold elapseAll
    rw [heff]
    unfold scheduledActions at h1 h2 ⊢
    rw [List.filterMap_append, h1.2.2.1, h2.2.2.1]
    rfl
  · rw [heff, List.countP_append, h2.1]
    simpa using h1.1
  · rw [heff, List.countP_append, h2.2.1]
    simpa using h1.2.1

/-- Witness for the amended C2 at the connected fixture. -/
theorem endCall_cleanup_w :
    connectedState.callState.status ≠ CallStatus.idle ∧
    (endCall none .ended connectedState).1.callState.status = CallStatus.ended ∧
    Effect.stopTracks sampleStream ∈ (endCall none .ended connectedState).2 := by
  have h := endCall_cleanup connectedState (by decide)
  exact ⟨by decide, h.2.2.2.2.2.2.1, h.2.1 sampleStream (by decide)⟩

/-! ## Claim C3 -/

/-- Claim C3: `call_accepted` moves the session to `connected` but never
triggers offer creation; the offer is created exactly on `participants_ready`
and exactly when this client is the initiator — across the whole inbound
dispatcher, offer creation is invoked only in the `participants_ready` case of
an initiator. -/
theorem offer_only_after_participants_ready (s : HookState) (cid : Option String) (m : InMsg) :
    (onMessage (InMsg.call_accepted cid) s).1.callState.status = CallStatus.connected ∧
    Effect.invokeCreateOffer ∉ (onMessage (InMsg.call_accepted cid) s).2 ∧
    (Effect.invokeCreateOffer ∈ (onMessage (InMsg.participants_ready cid) s).2 ↔
        s.callState.isInitiator = true) ∧
    (Effect.invokeCreateOffer ∈ (onMessage m s).2 →
        (∃ c, m = InMsg.participants_ready c) ∧ s.callState.isInitiator = true) := by
  refine ⟨?_, ?_, ?_, ?_⟩
  · by_cases hpc : s.peerConnection <;> simp [onMessage, hpc, initializePeerConnection]
  · by_cases hpc : s.peerConnection <;>
      by_cases hls : s.callState.localStream.isNone <;>
        simp [onMessage, hpc, hls, initializePeerConnection]
  · cases hini : s.callState.isInitiator <;> simp [onMessage, hini]
  · intro hmem
    cases m with
    | incoming_call cid2 a b ct => simp [onMessage] at hmem
    | call_ringing cid2 => simp [onMessage] at hmem
    | call_accepted cid2 =>
        by_cases hpc : s.peerConnection <;>
          by_cases hls : s.callState.localStream.isNone <;>
            simp [onMessage, hpc, hls, initializePeerConnection] at hmem
    | participants_ready cid2 =>
        cases hini : s.callState.isInitiator
        · simp [onMessage, hini] at hmem
        · exact ⟨⟨cid2, rfl⟩, rfl⟩
    | offer cid2 sdp =>
        by_cases hg : negotiationGuardOk cid2 s.callState.callId = true <;>
          simp [onMessage, hg] at hmem
    | answer cid2 sdp =>
        by_cases hg : negotiationGuardOk cid2 s.callState.callId = true <;>
          simp [onMessage, hg] at hmem
    | ice_candidate cid2 cand =>
        by_cases hg : negotiationGuardOk cid2 s.callState.callId = true <;>
          simp [onMessage, hg] at hmem
    | call_ended =>
        have heff : (onMessage InMsg.call_ended s).2
            = endCallSendEffects s.callState.callId s.wsOpen ++ (performCleanup .ended s).2 := rfl
        rw [heff] at hmem
        rcases List.mem_append.mp hmem with hin | hin
        · exact absurd hin (endCallSendEffects_shape s.callState.callId s.wsOpen).2.2.2
        · exact absurd hin (performCleanup_effects_shape .ended s).2.2.2
    | call_declined =>
        rcases hls : s.callState.localStream with _ | st <;>
          simp [onMessage, stopTrackEffects, hls] at hmem
    | call_busy => simp [onMessage] at hmem
    | no_answer => simp [onMessage] at hmem

/-- Witness for C3: an initiator receiving `participants_ready` does create
the offer. -/
theorem offer_only_after_participants_ready_w :
    (∃ c, InMsg.participants_ready (some "call-A") = InMsg.participants_ready c) ∧
    connectedState.callState.isInitiator = true := by
  exact (offer_only_after_participants_ready connectedState (some "call-A")
    (InMsg.participants_ready (some "call-A"))).2.2.2 (by decide)

/-- Local media acquisition touches only media-related session fields: call
identity, status, roles, the peer ref, the socket and the timer are untouched. -/
theorem startLocalMedia_preserves (a : Bool) (env : MediaEnv) (s : HookState) :
    (startLocalMedia a env s).1.callState.status = s.callState.status ∧
    (startLocalMedia a env s).1.callState.callId = s.callState.callId ∧
    (startLocalMedia a env s).1.callState.callType = s.callState.callType ∧
    (startLocalMedia a env s).1.callState.remoteUser = s.callState.remoteUser ∧
    (startLocalMedia a env s).1.callState.remoteStream = s.callState.remoteStream ∧
    (startLocalMedia a env s).1.callState.callDuration = s.callState.callDuration ∧
    (startLocalMedia a env s).1.callState.isInitiator = s.callState.isInitiator ∧
    (startLocalMedia a env s).1.peerConnection = s.peerConnection ∧
    (startLocalMedia a env s).1.wsOpen = s.wsOpen ∧
    (startLocalMedia a env s).1.incomingCall = s.incomingCall ∧
    (startLocalMedia a env s).1.durationTimer = s.durationTimer := by
  unfold startLocalMedia
  generalize (if a then env.audioOutcome else env.videoOutcome) = out
  rcases out with er | stream
  · rcases hao : env.audioOutcome with fbErr | fb <;>
      by_cases hb : (!a && blockedByPermissions er) = true <;>
        simp [hao, hb, requestStreamSuccessState, handleMediaAccessError]
  · simp [requestStreamSuccessState]

/-- Local media acquisition performs only device requests and track
attachment: it issues no REST request and no signaling send. -/
theorem startLocalMedia_no_signaling (a : Bool) (env : MediaEnv) (s : HookState) :
    (startLocalMedia a env s).2.1.countP effIsRestInitiate = 0 ∧
    (startLocalMedia a env s).2.1.countP effIsWsInitiate = 0 ∧
    (startLocalMedia a env s).2.1.countP effIsWsSendAny = 0 := by
  unfold startLocalMedia requestStreamSuccessEffects
  generalize (if a then env.audioOutcome else env.videoOutcome) = out
  rcases out with er | stream
  · rcases hao : env.audioOutcome with fbErr | fb <;>
      by_cases hb : (!a && blockedByPermissions er) = true <;>
        by_cases hpc : s.peerConnection <;>
          simp [hao, hb, hpc, effIsRestInitiate, effIsWsInitiate, effIsWsSendAny,
            List.countP_cons, List.countP_nil]
  · by_cases hpc : s.peerConnection <;>
      simp [hpc, effIsRestInitiate, effIsWsInitiate, effIsWsSendAny,
        List.countP_cons, List.countP_nil]

/-- Creating the peer connection emits no REST request and no signaling send,
and leaves the React call state untouched. -/
theorem initializePeerConnection_shape (s : HookState) :
    (initializePeerConnection s).2.countP effIsRestInitiate = 0 ∧
    (initializePeerConnection s).2.countP effIsWsInitiate = 0 ∧
    (initializePeerConnection s).2.countP effIsWsSendAny = 0 ∧
    (initializePeerConnection s).1.callState = s.callState ∧
    (initializePeerConnection s).1.wsOpen = s.wsOpen ∧
    (initializePeerConnection s).1.incomingCall = s.incomingCall := by
  by_cases hpc : s.peerConnection <;>
    simp [initializePeerConnection, hpc, effIsRestInitiate, effIsWsInitiate, effIsWsSendAny,
      List.countP_cons, List.countP_nil]

/-- The local cleanup of `startCall` emits no REST request and no signaling
send. -/
theorem startCallLocalCleanup_shape (s : HookState) :
    (startCallLocalCleanup s).2.countP effIsRestInitiate = 0 ∧
    (startCallLocalCleanup s).2.countP effIsWsInitiate = 0 ∧
    (startCallLocalCleanup s).2.countP effIsWsSendAny = 0 := by
  rcases hls : s.callState.localStream with _ | st <;> by_cases hpc : s.peerConnection <;>
    simp [startCallLocalCleanup, stopTrackEffects, hls, hpc,
      effIsRestInitiate, effIsWsInitiate, effIsWsSendAny, List.countP_cons, List.countP_nil]

/-- The 409-conflict teardown of `startCall` emits no `initiateCall` REST
request and no `initiate_call` signaling send. -/
theorem start409EndEffects_shape (e : StartErr) (w : Bool) :
    (start409EndEffects e w).countP effIsRestInitiate = 0 ∧
    (start409EndEffects e w).countP effIsWsInitiate = 0 := by
  unfold start409EndEffects
  split
  · split
    · split
      · simp
      · cases w <;>
          simp [effIsRestInitiate, effIsWsInitiate, List.countP_cons, List.countP_nil]
    · simp
  · simp

/-- Media acquisition keeps the status. -/
theorem media_keeps_status (a : Bool) (env : MediaEnv) (s : HookState) :
    (startLocalMedia a env s).1.callState.status = s.callState.status :=
  (startLocalMedia_preserves a env s).1

/-- Media acquisition keeps the call id. -/
theorem media_keeps_callId (a : Bool) (env : MediaEnv) (s : HookState) :
    (startLocalMedia a env s).1.callState.callId = s.callState.callId :=
  (startLocalMedia_preserves a env s).2.1

/-- Media acquisition keeps the initiator flag. -/
theorem media_keeps_isInitiator (a : Bool) (env : MediaEnv) (s : HookState) :
    (startLocalMedia a env s).1.callState.isInitiator = s.callState.isInitiator :=
  (startLocalMedia_preserves a env s).2.2.2.2.2.2.1

/-- Media acquisition issues no `initiateCall` REST request. -/
theorem media_no_restInitiate (a : Bool) (env : MediaEnv) (s : HookState) :
    (startLocalMedia a env s).2.1.countP effIsRestInitiate = 0 :=
  (startLocalMedia_no_signaling a env s).1

/-- Media acquisition sends no `initiate_call` signaling message. -/
theorem media_no_wsInitiate (a : Bool) (env : MediaEnv) (s : HookState) :
    (startLocalMedia a env s).2.1.countP effIsWsInitiate = 0 :=
  (startLocalMedia_no_signaling a env s).2.1

/-- Creating the peer connection keeps the React call state. -/
theorem initPC_keeps_callState (s : HookState) :
    (initializePeerConnection s).1.callState = s.callState :=
  (initializePeerConnection_shape s).2.2.2.1

/-- Creating the peer connection issues no `initiateCall` REST request. -/
theorem initPC_no_restInitiate (s : HookState) :
    (initializePeerConnection s).2.countP effIsRestInitiate = 0 :=
  (initializePeerConnection_shape s).1

/-- Creating the peer connection sends no `initiate_call` signaling message. -/
theorem initPC_no_wsInitiate (s : HookState) :
    (initializePeerConnection s).2.countP effIsWsInitiate = 0 :=
  (initializePeerConnection_shape s).2.1

/-- The local cleanup of `startCall` keeps the error message. -/
theorem startCallLocalCleanup_error (s : HookState) :
    (startCallLocalCleanup s).1.error = s.error := rfl

/-- The local cleanup of `startCall` resets the status to idle. -/
theorem startCallLocalCleanup_status (s : HookState) :
    (startCallLocalCleanup s).1.callState.status = CallStatus.idle := rfl

/-! ## Claim C7 -/

/-- Claim C7: with the signaling channel open, a `startCall` invocation issues
exactly one `initiateCall` REST request, and when the backend answers with a
call id it sends exactly one `initiate_call` signaling message carrying that
id, moving the session to `calling` as its initiator; with the channel closed
the invocation fails — error set, no REST request, no signaling send at all,
session reset to idle. -/
theorem startCall_unique_initiate (rid rname : String) (ct : CallType) (uname : Option String)
    (env : StartEnv) (s : HookState) (cid : String) :
    (s.wsOpen = true →
        (startCall rid rname ct uname env s).2.countP effIsRestInitiate = 1) ∧
    (s.wsOpen = true → env.initiateOutcome = Except.ok cid →
        (startCall rid rname ct uname env s).2.countP effIsWsInitiate = 1 ∧
        Effect.wsSend (OutMsg.initiate_call cid rid rname (uname.getD "User") ct)
          ∈ (startCall rid rname ct uname env s).2 ∧
        (startCall rid rname ct uname env s).1.callState.status = CallStatus.calling ∧
        (startCall rid rname ct uname env s).1.callState.callId = some cid ∧
        (startCall rid rname ct uname env s).1.callState.isInitiator = true) ∧
    (s.wsOpen = false →
        (startCall rid rname ct uname env s).2.countP effIsRestInitiate = 0 ∧
        (startCall rid rname ct uname env s).2.countP effIsWsSendAny = 0 ∧
        (startCall rid rname ct uname env s).1.error = some "WebSocket is not connected" ∧
        (startCall rid rname ct uname env s).1.callState.status = CallStatus.idle) := by
  refine ⟨?_, ?_, ?_⟩
  · intro hws
    rcases henv : env.initiateOutcome with e | c2
    · have h409 := (start409EndEffects_shape e true).1
      have hclean := (startCallLocalCleanup_shape (startCallErrorState e s)).1
      simp [startCall, hws, henv, List.countP_cons, List.countP_append,
        effIsRestInitiate, h409, hclean]
    · simp [startCall, hws, henv, List.countP_cons, List.countP_append,
        effIsRestInitiate, initPC_no_restInitiate, media_no_restInitiate]
  · intro hws hok
    refine ⟨?_, ?_, ?_, ?_, ?_⟩ <;>
      simp [startCall, hws, hok, List.countP_cons, List.countP_append,
        effIsWsInitiate, initPC_no_wsInitiate, media_no_wsInitiate,
        media_keeps_status, media_keeps_callId, media_keeps_isInitiator,
        initPC_keeps_callState]
  · intro hws
    have hs : startCall rid rname ct uname env s
        = startCallLocalCleanup { s with error := some "WebSocket is not connected" } := by
      simp [startCall, hws]
    rw [hs]
    exact ⟨(startCallLocalCleanup_shape _).1, (startCallLocalCleanup_shape _).2.2, rfl, rfl⟩

/-- Witness for C7 at the idle fixture with a successful initiation. -/
theorem startCall_unique_initiate_w :
    idleState.wsOpen = true ∧
    (startCall "user-2" "Bee" CallType.video none okStartEnv idleState).2.countP
      effIsRestInitiate = 1 ∧
    (startCall "user-2" "Bee" CallType.video none okStartEnv idleState).2.countP
      effIsWsInitiate = 1 ∧
    (startCall "user-2" "Bee" CallType.video none okStartEnv
      idleState).1.callState.status = CallStatus.calling := by
  have h := startCall_unique_initiate "user-2" "Bee" CallType.video none okStartEnv
    idleState "call-N"
  have h2 := h.2.1 rfl rfl
  exact ⟨rfl, h.1 rfl, h2.1, h2.2.2.1⟩

/-! ## Claim C9 -/

/-- Claim C9: a `startCall` rejected 409 with a conflicting `call_id` X sends
the `end_call` REST request for X and (channel open) the `end_call` signaling
message for X, surfaces the conflict message, and leaves the session idle —
`callId` null, local and remote streams released, peer connection closed —
ready for a retry. -/
theorem startCall_409_conflict_teardown (rid rname : String) (ct : CallType)
    (uname : Option String) (s : HookState) (x msg axm : String) (menv : MediaEnv)
    (hws : s.wsOpen = true) (hx : x.isEmpty = false) :
    Effect.restEndCall x ∈ (startCall rid rname ct uname (conflict409Env x msg axm menv) s).2 ∧
    Effect.wsSend (OutMsg.end_call x)
      ∈ (startCall rid rname ct uname (conflict409Env x msg axm menv) s).2 ∧
    (startCall rid rname ct uname (conflict409Env x msg axm menv) s).1.error = some msg ∧
    (startCall rid rname ct uname (conflict409Env x msg axm menv) s).1.callState.status
      = CallStatus.idle ∧
    (startCall rid rname ct uname (conflict409Env x msg axm menv) s).1.callState.callId
      = none ∧
    (startCall rid rname ct uname (conflict409Env x msg axm menv) s).1.callState.localStream
      = none ∧
    (startCall rid rname ct uname (conflict409Env x msg axm menv) s).1.callState.remoteStream
      = none ∧
    (startCall rid rname ct uname (conflict409Env x msg axm menv) s).1.peerConnection = false ∧
    (∀ st, s.callState.localStream = some st →
        Effect.stopTracks st
          ∈ (startCall rid rname ct uname (conflict409Env x msg axm menv) s).2) := by
  refine ⟨?_, ?_, ?_, ?_, ?_, ?_, ?_, ?_, ?_⟩
  · simp [startCall, conflict409Env, hws, hx, start409EndEffects, startErrStatusCode,
      startErrDetail]
  · simp [startCall, conflict409Env, hws, hx, start409EndEffects, startErrStatusCode,
      startErrDetail]
  · simp [startCall, conflict409Env, hws, startCallErrorState, startErrStatusCode,
      startErrDetail, startCallLocalCleanup_error]
  · simp [startCall, conflict409Env, hws, startCallLocalCleanup_status]
  · simp [startCall, conflict409Env, hws, startCallLocalCleanup]
  · simp [startCall, conflict409Env, hws, startCallLocalCleanup]
  · simp [startCall, conflict409Env, hws, startCallLocalCleanup]
  · simp [startCall, conflict409Env, hws, startCallLocalCleanup]
  · intro st hst
    simp [startCall, conflict409Env, hws, startCallLocalCleanup, stopTrackEffects,
      startCallErrorState, startErrStatusCode, startErrDetail, hst]

/-- Witness for C9: a concrete 409 conflict on `call-X`. -/
theorem startCall_409_conflict_teardown_w :
    idleState.wsOpen = true ∧
    Effect.restEndCall "call-X"
      ∈ (startCall "user-2" "Bee" CallType.video none
          (conflict409Env "call-X" "conflict message" "Request failed" happyMediaEnv)
          idleState).2 ∧
    (startCall "user-2" "Bee" CallType.video none
        (conflict409Env "call-X" "conflict message" "Request failed" happyMediaEnv)
        idleState).1.callState.status = CallStatus.idle := by
  have h := startCall_409_conflict_teardown "user-2" "Bee" CallType.video none idleState
    "call-X" "conflict message" "Request failed" happyMediaEnv rfl (by decide)
  exact ⟨rfl, h.1, h.2.2.2.1⟩

/-! ## Claim C4 -/

/-- Claim C4 fails for device-not-found errors: with the camera+mic request
dying with `NotFoundError` while an audio-only request would succeed, the code
performs no audio-only fallback request at all — the single video request is
the only device access, the acquisition fails, the local stream stays null and
the device error is surfaced. -/
theorem device_not_found_no_fallback :
    (startLocalMedia false notFoundEnv idleState).2.1
      = [Effect.invokeGetUserMedia MediaReq.videoHD] ∧
    mediaFailed (startLocalMedia false notFoundEnv idleState).2.2 = true ∧
    (startLocalMedia false notFoundEnv idleState).1.callState.localStream = none ∧
    (startLocalMedia false notFoundEnv idleState).1.error
      = some "No camera or microphone detected. Connect a device and retry." := by
  decide

/-- Claim C4 (amended): the audio-only fallback happens exactly for
permission errors (`NotAllowedError` / `SecurityError`) on a video request —
then the acquisition succeeds audio-only with `isVideo = false` and a
recoverable message; any other failure of a video request (in particular
device-not-found) performs no fallback and surfaces the media error; a failed
audio-only request is terminal with its error surfaced; and a failed
acquisition never aborts the started call, which stays in `calling`. -/
theorem media_fallback_policy (s : HookState) (env : MediaEnv) (n : String)
    (st : LocalMediaStream) (e : MediaErr) (rid rname : String) (ct : CallType)
    (uname : Option String) (cid : String) (senv : StartEnv) :
    ((n = "NotAllowedError" ∨ n = "SecurityError") →
        env.videoOutcome = Except.error (MediaErr.domException n) →
        env.audioOutcome = Except.ok st →
        (startLocalMedia false env s).1.callState.isVideo = false ∧
        (startLocalMedia false env s).1.callState.localStream = some st ∧
        (startLocalMedia false env s).1.error
          = some "Camera access blocked. Continuing with audio-only." ∧
        mediaFailed (startLocalMedia false env s).2.2 = false ∧
        Effect.invokeGetUserMedia MediaReq.audioOnly ∈ (startLocalMedia false env s).2.1) ∧
    (env.videoOutcome = Except.error e → blockedByPermissions e = false →
        (startLocalMedia false env s).2.1 = [Effect.invokeGetUserMedia MediaReq.videoHD] ∧
        mediaFailed (startLocalMedia false env s).2.2 = true ∧
        (startLocalMedia false env s).1.error = some (mediaErrMessage e) ∧
        (startLocalMedia false env s).1.callState.localStream = none) ∧
    (env.audioOutcome = Except.error e →
        (startLocalMedia true env s).2.1 = [Effect.invokeGetUserMedia MediaReq.audioOnly] ∧
        mediaFailed (startLocalMedia true env s).2.2 = true ∧
        (startLocalMedia true env s).1.error = some (mediaErrMessage e)) ∧
    (s.wsOpen = true → senv.initiateOutcome = Except.ok cid →
        (startCall rid rname ct uname senv s).1.callState.status = CallStatus.calling ∧
        (startCall rid rname ct uname senv s).1.callState.callId = some cid) := by
  refine ⟨?_, ?_, ?_, ?_⟩
  · intro hn hv ha
    rcases hn with h | h <;> subst h <;>
      refine ⟨?_, ?_, ?_, ?_, ?_⟩ <;>
        simp [startLocalMedia, hv, ha, blockedByPermissions, requestStreamSuccessState,
          requestStreamSuccessEffects, mediaFailed]
  · intro hv hbp
    refine ⟨?_, ?_, ?_, ?_⟩ <;>
      simp [startLocalMedia, hv, hbp, handleMediaAccessError, mediaFailed]
  · intro ha
    refine ⟨?_, ?_, ?_⟩ <;>
      simp [startLocalMedia, ha, handleMediaAccessError, mediaFailed]
  · intro hws hok
    constructor <;>
      simp [startCall, hws, hok, media_keeps_status, media_keeps_callId, initPC_keeps_callState]

/-- Witness for the amended C4: permission-blocked video falls back to audio. -/
theorem media_fallback_policy_w :
    permBlockedEnv.videoOutcome = Except.error (MediaErr.domException "NotAllowedError") ∧
    (startLocalMedia false permBlockedEnv idleState).1.callState.isVideo = false ∧
    (startLocalMedia false permBlockedEnv idleState).1.callState.localStream
      = some audioOnlyStream ∧
    (startLocalMedia false permBlockedEnv idleState).1.error
      = some "Camera access blocked. Continuing with audio-only." := by
  have h := (media_fallback_policy idleState permBlockedEnv "NotAllowedError" audioOnlyStream
    MediaErr.otherValue "user-2" "Bee" CallType.video none "call-N" okStartEnv).1
    (Or.inl rfl) rfl rfl
  exact ⟨rfl, h.1, h.2.1, h.2.2.1⟩

/-! ## Claim C6 -/

/-- Claim C6: a 409 on accept whose detail message marks the call as already
accepted is handled exactly like a plain successful accept — same resulting
state including `status = connected`, same effects, no error and no teardown;
a 409 without that marker is a failure: the error is surfaced and the call is
torn down (`end_call` REST request, signaling when the channel is open, state
reset to idle with the notice cleared). -/
theorem accept_409_idempotent (s : HookState) (override : Option CallType) (e : AcceptErr)
    (menv : MediaEnv) (inc : IncomingCall) :
    (acceptAlreadyAccepted (acceptErrStatusCode e) (acceptDetailMessage (acceptErrDetail e))
        = true →
      acceptCall override { outcome := Except.error e, media := menv } s
        = acceptCall override { outcome := Except.ok (), media := menv } s) ∧
    (acceptAlreadyAccepted (acceptErrStatusCode e) (acceptDetailMessage (acceptErrDetail e))
        = true → s.incomingCall = some inc →
      (acceptCall override { outcome := Except.error e, media := menv } s).1.callState.status
        = CallStatus.connected ∧
      (acceptCall override { outcome := Except.error e, media := menv } s).1.callState.callId
        = some inc.callId ∧
      (acceptCall override { outcome := Except.error e, media := menv }
        s).1.callState.isInitiator = false ∧
      (acceptCall override { outcome := Except.error e, media := menv } s).1.incomingCall
        = none) ∧
    (acceptErrStatusCode e = some 409 →
      acceptAlreadyAccepted (acceptErrStatusCode e) (acceptDetailMessage (acceptErrDetail e))
        = false →
      s.incomingCall = some inc →
      (acceptCall override { outcome := Except.error e, media := menv } s).1.error
        = some ((acceptDetailMessage (acceptErrDetail e)).getD
            "This call is no longer available to accept.") ∧
      Effect.restEndCall (acceptTargetCallId e inc.callId)
        ∈ (acceptCall override { outcome := Except.error e, media := menv } s).2 ∧
      (s.wsOpen = true →
        Effect.wsSend (OutMsg.end_call (acceptTargetCallId e inc.callId))
          ∈ (acceptCall override { outcome := Except.error e, media := menv } s).2) ∧
      (acceptCall override { outcome := Except.error e, media := menv } s).1.callState.status
        = CallStatus.idle ∧
      (acceptCall override { outcome := Except.error e, media := menv } s).1.callState.callId
        = none ∧
      (acceptCall override { outcome := Except.error e, media := menv } s).1.incomingCall
        = none) := by
  refine ⟨?_, ?_, ?_⟩
  · intro hacc
    rcases hinc : s.incomingCall with _ | inc2
    · simp [acceptCall, hinc]
    · simp [acceptCall, hinc, hacc]
  · intro hacc hinc
    refine ⟨?_, ?_, ?_, ?_⟩ <;>
      simp [acceptCall, hinc, hacc, acceptProceed, media_keeps_status, media_keeps_callId,
        media_keeps_isInitiator, initPC_keeps_callState]
  · intro h409 hnacc hinc
    rw [h409] at hnacc
    refine ⟨?_, ?_, ?_, ?_, ?_, ?_⟩
    · simp [acceptCall, hinc, hnacc, h409, acceptCallCleanup, acceptFailState]
    · simp [acceptCall, hinc, hnacc, h409]
    · intro hws
      simp [acceptCall, hinc, hnacc, h409, hws]
    · simp [acceptCall, hinc, hnacc, h409, acceptCallCleanup]
    · simp [acceptCall, hinc, hnacc, h409, acceptCallCleanup]
    · simp [acceptCall, hinc, hnacc, h409, acceptCallCleanup]

/-- Witness for C6: the concrete already-accepted 409 is handled exactly like
a plain success. -/
theorem accept_409_idempotent_w :
    acceptAlreadyAccepted (acceptErrStatusCode accept409AlreadyErr)
        (acceptDetailMessage (acceptErrDetail accept409AlreadyErr)) = true ∧
    acceptCall none { outcome := Except.error accept409AlreadyErr, media := happyMediaEnv }
        ringingIncomingState
      = acceptCall none { outcome := Except.ok (), media := happyMediaEnv }
          ringingIncomingState := by
  refine ⟨by decide, ?_⟩
  exact (accept_409_idempotent ringingIncomingState none accept409AlreadyErr happyMediaEnv
    incomingSample).1 (by decide)

end RTComm
